import Mathlib

/-!
Shallow embedding of the ProDBG source fragment:
  * `src/prodbg/core/math.h` — the `Rect` and `FloatRect` plain structs and
    the `int_min` macro;
  * `src/prodbg/ui/MainWindow.h` — the `PluginInfo` struct and the state
    fields of the `MainWindow` class.

C `int` values are modelled as `Int` (the macro only compares and selects,
so no overflow arises); C `float` fields are modelled as Lean `Float`
(they are only stored and read back, never computed with).  Raw C pointers
to forward-declared types are modelled as machine addresses tagged with a
phantom type.
-/

namespace ProDBG

/-- A raw C pointer, modelled as a machine address with a phantom pointee
type.  The fragment never dereferences any pointer, so an address is a
faithful model. -/
structure Ptr (α : Type) where
  addr : Nat
deriving DecidableEq, Repr

/-- Forward-declared `struct Plugin` (contents unknown in the fragment). -/
structure Plugin where
  dummy : Unit
deriving DecidableEq, Repr

/-- Forward-declared `struct Session` (contents unknown in the fragment). -/
structure Session where
  dummy : Unit
deriving DecidableEq, Repr

/-- Forward-declared `struct MenuDescriptor`. -/
structure MenuDescriptor where
  dummy : Unit
deriving DecidableEq, Repr

/-- Forward-declared Qt class `QMenu`. -/
structure QMenu where
  dummy : Unit
deriving DecidableEq, Repr

/-- Forward-declared Qt class `QTimer`. -/
structure QTimer where
  dummy : Unit
deriving DecidableEq, Repr

/-- Forward-declared Qt class `QSignalMapper`. -/
structure QSignalMapper where
  dummy : Unit
deriving DecidableEq, Repr

/-- `typedef struct Rect { int x; int y; int width; int height; } Rect;`
from `math.h` lines 5–11. -/
structure Rect where
  x : Int
  y : Int
  width : Int
  height : Int
deriving DecidableEq, Repr

/-- `typedef struct FloatRect { float x; float y; float width; float height; }`
from `math.h` lines 15–21.  The fields are only stored and read, so `Float`
is used purely as a carrier type. -/
structure FloatRect where
  x : Float
  y : Float
  width : Float
  height : Float
deriving Repr

/-- `#define int_min(a, b) ((a < b) ? b : a)` from `math.h` line 25,
translated literally: the conditional keeps the inverted branch order of
the source. -/
def int_min (a b : Int) : Int :=
  if a < b then b else a

/-- `struct PluginInfo { Plugin* plugin; int menuItem; };` from
`MainWindow.h` lines 25–29. -/
structure PluginInfo where
  plugin : Ptr Plugin
  menuItem : Int
deriving DecidableEq, Repr

/-- The private state fields of `class MainWindow` from `MainWindow.h`
lines 35–63, in source order: the plugin menu, the timer, the signal
mapper, the plugin-info array pointer, the remote session pointer, the
active session pointer and the plugin count. -/
structure MainWindow where
  m_pluginMenu : Ptr QMenu
  m_timer : Ptr QTimer
  m_signalMapper : Ptr QSignalMapper
  m_pluginInfoArray : Ptr PluginInfo
  m_remoteSession : Ptr Session
  m_activeSession : Ptr Session
  m_pluginCount : Int
deriving DecidableEq, Repr

end ProDBG

namespace ProDBG

/-- C1 — The claim states that for `a < b` the macro `int_min(a, b)`
returns the smaller value `a`.  The code does the opposite: at the
concrete input `a = 1`, `b = 2` (where `1 < 2`) the macro evaluates to
`2`, the larger argument, contradicting the minimum semantics its own
name promises.  This theorem records the code's behaviour at that
failing input. -/
theorem int_min_returns_larger_at_one_two : int_min 1 2 = 2 := by
  decide

/-- C2 — For all integer inputs `a` and `b`, `int_min a b` equals
`max a b`: it returns `b` when `a < b` and `a` otherwise. -/
theorem int_min_eq_max (a b : Int) :
    int_min a b = max a b ∧
    (a < b → int_min a b = b) ∧
    (b ≤ a → int_min a b = a) := by
  refine ⟨?_, ?_, ?_⟩
  · unfold int_min
    split
    · omega
    · omega
  · intro h
    unfold int_min
    simp [h]
  · intro h
    unfold int_min
    split
    · omega
    · rfl

/-- Witness for C2 at the concrete inputs `(1, 2)` and `(5, 3)`. -/
theorem int_min_eq_max_witness :
    int_min 1 2 = max 1 2 ∧ int_min 1 2 = 2 ∧ int_min 5 3 = 5 :=
  ⟨(int_min_eq_max 1 2).1,
   (int_min_eq_max 1 2).2.1 (by decide),
   (int_min_eq_max 5 3).2.2 (by decide)⟩

/-- C3 — Field round-trip: constructing a `Rect` or a `FloatRect` from
values `x, y, width, height` and reading back each of the four fields
yields exactly the values supplied at construction. -/
theorem rect_field_roundtrip (x y w h : Int) (fx fy fw fh : Float) :
    ((Rect.mk x y w h).x = x ∧ (Rect.mk x y w h).y = y ∧
     (Rect.mk x y w h).width = w ∧ (Rect.mk x y w h).height = h) ∧
    ((FloatRect.mk fx fy fw fh).x = fx ∧ (FloatRect.mk fx fy fw fh).y = fy ∧
     (FloatRect.mk fx fy fw fh).width = fw ∧
     (FloatRect.mk fx fy fw fh).height = fh) :=
  ⟨⟨rfl, rfl, rfl, rfl⟩, ⟨rfl, rfl, rfl, rfl⟩⟩

/-- C4 — No invariant is enforced on `Rect` or `FloatRect`: every
assignment of field values, including negative width and height, is
realised by a value of the type whose fields read back unchanged (no
operation rejects or normalises it). -/
theorem rect_no_invariant (x y w h : Int) (fx fy fw fh : Float) :
    (∃ r : Rect, r.x = x ∧ r.y = y ∧ r.width = w ∧ r.height = h) ∧
    (∃ fr : FloatRect,
      fr.x = fx ∧ fr.y = fy ∧ fr.width = fw ∧ fr.height = fh) ∧
    (∃ r : Rect, r.width = -1 ∧ r.height = -1) :=
  ⟨⟨Rect.mk x y w h, rfl, rfl, rfl, rfl⟩,
   ⟨FloatRect.mk fx fy fw fh, rfl, rfl, rfl, rfl⟩,
   ⟨Rect.mk 0 0 (-1) (-1), rfl, rfl⟩⟩

/-- C5 — Totality: every operation of the fragment — `Rect` and
`FloatRect` construction, each field access, and evaluation of
`int_min` — yields exactly one result on every input; there is no
fallible branch. -/
theorem fragment_operations_total
    (a b x y w h : Int) (fx fy fw fh : Float) (r : Rect) (fr : FloatRect) :
    (∃! v : Int, int_min a b = v) ∧
    (∃! s : Rect, Rect.mk x y w h = s) ∧
    (∃! s : FloatRect, FloatRect.mk fx fy fw fh = s) ∧
    (∃! v : Int, r.x = v) ∧ (∃! v : Int, r.y = v) ∧
    (∃! v : Int, r.width = v) ∧ (∃! v : Int, r.height = v) ∧
    (∃! v : Float, fr.x = v) ∧ (∃! v : Float, fr.y = v) ∧
    (∃! v : Float, fr.width = v) ∧ (∃! v : Float, fr.height = v) :=
  ⟨⟨int_min a b, rfl, fun _ hv => hv.symm⟩,
   ⟨Rect.mk x y w h, rfl, fun _ hv => hv.symm⟩,
   ⟨FloatRect.mk fx fy fw fh, rfl, fun _ hv => hv.symm⟩,
   ⟨r.x, rfl, fun _ hv => hv.symm⟩, ⟨r.y, rfl, fun _ hv => hv.symm⟩,
   ⟨r.width, rfl, fun _ hv => hv.symm⟩, ⟨r.height, rfl, fun _ hv => hv.symm⟩,
   ⟨fr.x, rfl, fun _ hv => hv.symm⟩, ⟨fr.y, rfl, fun _ hv => hv.symm⟩,
   ⟨fr.width, rfl, fun _ hv => hv.symm⟩, ⟨fr.height, rfl, fun _ hv => hv.symm⟩⟩

/-- C6 — `PluginInfo` consists of exactly a pointer to a `Plugin` and an
integer `menuItem` and nothing else: the two projections return the
construction arguments, and every `PluginInfo` is the construction of
its two projections. -/
theorem pluginInfo_exactly_two_components
    (pl : Ptr Plugin) (mi : Int) (p : PluginInfo) :
    (PluginInfo.mk pl mi).plugin = pl ∧
    (PluginInfo.mk pl mi).menuItem = mi ∧
    p = PluginInfo.mk p.plugin p.menuItem :=
  ⟨rfl, rfl, rfl⟩

/-- C7 — The `MainWindow` state comprises exactly: a pointer to the
active `Session`, a separate pointer to a remote `Session`, a pointer to
the contiguous `PluginInfo` array with an integer plugin count, and the
toolkit-owned UI objects (a menu, a timer, and a signal mapper).  The
projections return the construction arguments and every `MainWindow`
state is the construction of its seven projections. -/
theorem mainWindow_state_fields
    (menu : Ptr QMenu) (timer : Ptr QTimer) (mapper : Ptr QSignalMapper)
    (arr : Ptr PluginInfo) (remote active : Ptr Session) (count : Int)
    (w : MainWindow) :
    (MainWindow.mk menu timer mapper arr remote active count).m_pluginMenu = menu ∧
    (MainWindow.mk menu timer mapper arr remote active count).m_timer = timer ∧
    (MainWindow.mk menu timer mapper arr remote active count).m_signalMapper = mapper ∧
    (MainWindow.mk menu timer mapper arr remote active count).m_pluginInfoArray = arr ∧
    (MainWindow.mk menu timer mapper arr remote active count).m_remoteSession = remote ∧
    (MainWindow.mk menu timer mapper arr remote active count).m_activeSession = active ∧
    (MainWindow.mk menu timer mapper arr remote active count).m_pluginCount = count ∧
    w = MainWindow.mk w.m_pluginMenu w.m_timer w.m_signalMapper
          w.m_pluginInfoArray w.m_remoteSession w.m_activeSession
          w.m_pluginCount :=
  ⟨rfl, rfl, rfl, rfl, rfl, rfl, rfl, rfl⟩

/-- C8 — The result of `int_min a b` is always one of its two
arguments. -/
theorem int_min_selects_argument (a b : Int) :
    int_min a b = a ∨ int_min a b = b := by
  unfold int_min
  split
  · right; rfl
  · left; rfl

/-- C9 — `int_min` is commutative. -/
theorem int_min_comm (a b : Int) : int_min a b = int_min b a := by
  unfold int_min
  split
  · split
    · omega
    · omega
  · split
    · omega
    · omega

/-- C10 — `int_min` is idempotent: on equal inputs the macro does return
the minimum. -/
theorem int_min_idem (a : Int) : int_min a a = a := by
  unfold int_min
  simp

end ProDBG
